import Mathlib

/-!
Verification development for the hydraulic-valve diagnosis service
(`backend/app.py`, `backend/train_model.py`).

The Python code is shallowly embedded: floats are modelled as exact
rationals (with `Option ℚ` where a cell can be NaN / missing), Python
dicts as association lists, the Flask request handler as a pure function
from server state and request data to an HTTP result plus the new server
state, and exceptions as `Except`/`Option` values.  External collaborators
(the fitted scikit-learn model and the SHAP explainer) are abstract
function fields, exactly as the service treats them.
-/

/-! ## Python string primitives used by `generate_text_explanation` -/

/-- Model of Python `str.replace('_', ' ')`: replace every underscore by a
space, character by character. -/
def pyReplaceUnderscore (s : String) : String :=
  String.mk (s.data.map (fun c => if c = '_' then ' ' else c))

/-- One step of Python `str.title()` over the character list: a cased
character is uppercased when the previous character was not alphabetic and
lowercased otherwise; other characters pass through unchanged. -/
def pyTitleGo : Bool → List Char → List Char
  | _, [] => []
  | prevAlpha, c :: cs =>
    (if c.isAlpha then (if prevAlpha then c.toLower else c.toUpper) else c)
      :: pyTitleGo c.isAlpha cs

/-- Model of Python `str.title()`. -/
def pyTitle (s : String) : String :=
  String.mk (pyTitleGo false s.data)

/-- Model of Python `str.split()` (no separator argument): split on runs of
whitespace, dropping empty pieces. The feature names only use spaces
(obtained from underscores), so splitting on the space character suffices. -/
def pySplit (s : String) : List String :=
  ((s.data.splitOn ' ').map String.mk).filter (fun w => w ≠ "")

/-- `feature_name.replace('_', ' ').title().split()` from
`generate_text_explanation` (`app.py` line 64). -/
def pyTitleParts (feature_name : String) : List String :=
  pySplit (pyTitle (pyReplaceUnderscore feature_name))

/-- Rounding of the integer quotient `a / b` (with `b > 0`) half to even,
as used by Python `format(x, '.2f')` on the exact value.  Implemented with
floor division/modulo over `ℤ` so that it evaluates by kernel reduction. -/
def divRoundHalfEven (a : ℤ) (b : ℤ) : ℤ :=
  let f := Int.fdiv a b
  let r := Int.fmod a b
  if 2 * r < b then f
  else if b < 2 * r then f + 1
  else if f % 2 = 0 then f else f + 1

/-- Two-digit rendering of a natural number below 100 (the fractional part
of a fixed two-decimal rendering). -/
def twoDigits (n : ℕ) : String :=
  if n < 10 then "0" ++ toString n else toString n

/-- Model of the Python f-string conversion `f"{q:.2f}"` on an exact
rational: round `q` to two decimal places, ties to even, and print with a
sign, an integer part and exactly two fractional digits. -/
def fmt2 (q : ℚ) : String :=
  let n : ℤ := divRoundHalfEven (q.num * 100) (q.den : ℤ)
  let sign := if q < 0 then "-" else ""
  let m := n.natAbs
  sign ++ toString (m / 100) ++ "." ++ twoDigits (m % 100)

/-- A float cell: `none` models NaN (a missing feature value), `some q` a
real reading. -/
abbrev FVal := Option ℚ

/-- `f"{value:.2f}"` where `value` may be NaN: Python renders NaN as
`"nan"`. -/
def fmtF : FVal → String
  | none => "nan"
  | some q => fmt2 q

/-- Python `value < bound` where `value` may be NaN: every comparison with
NaN is false. -/
def fvalLt (v : FVal) (bound : ℚ) : Bool :=
  match v with
  | none => false
  | some q => decide (q < bound)

/-- Python `value > bound` where `value` may be NaN. -/
def fvalGt (v : FVal) (bound : ℚ) : Bool :=
  match v with
  | none => false
  | some q => decide (bound < q)

/-! ## The Explanation Generator (`generate_text_explanation`, app.py 63-78) -/

/-- Text of the `value < lower_bound` branch (app.py line 74). -/
def lowText (metric sensor : String) (v : FVal) (lb ub : ℚ) : String :=
  "The **" ++ metric ++ " of " ++ sensor ++ "** was " ++ "unusually **low**"
    ++ " (" ++ fmtF v ++ ")"
    ++ ", falling below the " ++ "normal range of "
    ++ (fmt2 lb ++ " - " ++ fmt2 ub)
    ++ ". This could indicate a leak or a loss of system pressure."

/-- Text of the `value > upper_bound` branch (app.py line 76). -/
def highText (metric sensor : String) (v : FVal) (lb ub : ℚ) : String :=
  "The **" ++ metric ++ " of " ++ sensor ++ "** was " ++ "unusually **high**"
    ++ " (" ++ fmtF v ++ ")"
    ++ ", exceeding the " ++ "normal range of "
    ++ (fmt2 lb ++ " - " ++ fmt2 ub)
    ++ ". This might suggest a blockage or excessive system strain."

/-- Text of the in-range branch (app.py line 78). -/
def withinText (metric sensor : String) (v : FVal) : String :=
  "The **" ++ metric ++ " of " ++ sensor ++ "** (" ++ fmtF v ++ ") was "
    ++ "within" ++ " its " ++ "normal range"
    ++ " but still a key factor in the model\x27s decision, possibly due "
    ++ "to its interaction with other sensor readings."

/-- Text of the unknown-range branch (app.py line 69): no numeric bound is
rendered. -/
def genericText (metric sensor : String) : String :=
  "The " ++ metric ++ " of " ++ sensor ++ " was a significant factor."

/-- `generate_text_explanation(feature_name, value, normal_range_tuple)`
(app.py lines 63-78).  Returns `none` exactly when indexing
`feature_parts[0]` would raise (empty split), which the request handler's
`except` clause would catch. -/
def generate_text_explanation (feature_name : String) (value : FVal)
    (normal_range_tuple : Option (ℚ × ℚ)) : Option String :=
  match pyTitleParts feature_name with
  | [] => none
  | sensor :: rest =>
    let metric := String.intercalate " " rest
    match normal_range_tuple with
    | none => some (genericText metric sensor)
    | some (lower_bound, upper_bound) =>
      if fvalLt value lower_bound then
        some (lowText metric sensor value lower_bound upper_bound)
      else if fvalGt value upper_bound then
        some (highText metric sensor value lower_bound upper_bound)
      else
        some (withinText metric sensor value)

/-! ## Substring containment -/

/-- `pat` occurs as a contiguous substring of `s`. -/
def containsStr (s pat : String) : Prop :=
  pat.data <:+: s.data

/-- The middle component of a two-sided append is contained in it. -/
theorem containsStr_here (a p b : String) : containsStr (a ++ p ++ b) p := by
  unfold containsStr
  rw [String.data_append, String.data_append]
  exact List.infix_append _ _ _

/-- Containment survives appending on the right. -/
theorem containsStr_left {a p : String} (b : String) (h : containsStr a p) :
    containsStr (a ++ b) p := by
  unfold containsStr at h ⊢
  rw [String.data_append]
  obtain ⟨s, t, hst⟩ := h
  exact ⟨s, t ++ b.data, by rw [← hst]; simp⟩

/-- Containment survives appending on the left. -/
theorem containsStr_right {b p : String} (a : String) (h : containsStr b p) :
    containsStr (a ++ b) p := by
  unfold containsStr at h ⊢
  rw [String.data_append]
  obtain ⟨s, t, hst⟩ := h
  exact ⟨a.data ++ s, t, by rw [← hst]; simp⟩

/-- A string contains itself. -/
theorem containsStr_self (p : String) : containsStr p p :=
  ⟨[], [], by simp⟩

/-! ## Attribution ranking (`np.argsort(np.abs(...))[-3:][::-1]`, app.py 100-101) -/

/-- Comparison of two indices by the key list (the absolute SHAP values):
the ordering relation `np.argsort` sorts by. -/
def keyLe (keys : List ℚ) (a b : ℕ) : Prop :=
  keys.getD a 0 ≤ keys.getD b 0

instance keyLeDecidable (keys : List ℚ) : DecidableRel (keyLe keys) :=
  fun _ _ => inferInstanceAs (Decidable (_ ≤ _))

instance keyLeTotal (keys : List ℚ) : IsTotal ℕ (keyLe keys) :=
  ⟨fun _ _ => le_total _ _⟩

instance keyLeTrans (keys : List ℚ) : IsTrans ℕ (keyLe keys) :=
  ⟨fun _ _ _ => le_trans⟩

/-- Model of `np.argsort(keys)`: the indices `0 .. len-1` stably sorted by
ascending key. -/
def argsortAsc (keys : List ℚ) : List ℕ :=
  List.insertionSort (keyLe keys) (List.range keys.length)

/-- The per-index key used by the ranking step: the absolute attribution of
the feature at that index (`np.abs(shap_values_for_class)`). -/
def absKey (shapv : List ℚ) (k : ℕ) : ℚ :=
  (shapv.map (fun x => |x|)).getD k 0

/-- `top_indices = np.argsort(abs_shap_values)[-3:][::-1]` (app.py 100-101):
indices of the (up to) three largest absolute attributions, largest first. -/
def top_indices (shapv : List ℚ) : List ℕ :=
  ((argsortAsc (shapv.map (fun x => |x|))).drop (shapv.length - 3)).reverse

/-- Exchange the entries at positions `i` and `j` of a value list (the
"swap the attribution magnitudes of two input features" experiment). -/
def swapVals (v : List ℚ) (i j : ℕ) : List ℚ :=
  (v.set i (v.getD j 0)).set j (v.getD i 0)

/-- The transposition of the indices `i` and `j`. -/
def swapIdx (i j k : ℕ) : ℕ :=
  if k = i then j else if k = j then i else k

/-! ## Range Calculator (quantiles, app.py 42-47) -/

/-- Model of `pandas.Series.quantile(p)` with the default linear
interpolation: sort the values, locate the fractional position
`p * (n - 1)` and interpolate linearly between the two neighbouring order
statistics.  On an empty series pandas yields NaN, modelled as `none`. -/
def pd_quantile (xs : List ℚ) (p : ℚ) : Option ℚ :=
  match xs with
  | [] => none
  | _ :: _ =>
    let s := List.insertionSort (· ≤ ·) xs
    let n := s.length
    let pos := p * ((n : ℚ) - 1)
    let i := (⌊pos⌋).toNat
    let j := min (i + 1) (n - 1)
    some (s.getD i 0 + (pos - (i : ℚ)) * (s.getD j 0 - s.getD i 0))

/-- `features_df[profile['valve_condition'] == 100]` restricted to a single
feature column (app.py line 42): keep the values of the rows whose label is
the nominal condition code 100. -/
def filterNominal (vals : List ℚ) (labels : List ℤ) : List ℚ :=
  ((vals.zip labels).filter (fun pr => pr.2 == 100)).map Prod.fst

/-- One `normal_ranges[col]` entry (app.py lines 44-47): the pair of the
5th and the 95th percentile of the nominal-labeled values of the column;
`none` when the filtered column is empty (pandas would store NaN bounds). -/
def normal_range_entry (vals : List ℚ) (labels : List ℤ) : Option (ℚ × ℚ) :=
  match pd_quantile (filterNominal vals labels) (1/20),
        pd_quantile (filterNominal vals labels) (19/20) with
  | some lower_bound, some upper_bound => some (lower_bound, upper_bound)
  | _, _ => none

/-! ## Feature Extractor concatenation (`pd.concat(all_features, axis=1)`,
app.py line 41 and train_model.py line 52) -/

/-- Model of `pandas.concat(tables, axis=1)` with the default outer join on
the row index: the result has as many rows as the longest table; a table
shorter than that contributes NaN cells (here `none`) for the missing rows.
Each table is a list of rows, each row a list of cell values; the column
count of a table is read off its first row. -/
def pd_concat_outer (tables : List (List (List ℚ))) : List (List FVal) :=
  let nRows := (tables.map List.length).foldr max 0
  (List.range nRows).map (fun r =>
    (tables.map (fun t =>
      match t.get? r with
      | some row => row.map some
      | none => (t.headD []).map (fun _ => (none : FVal)))).flatten)

/-! ## The Prediction Service (app.py 80-121) -/

/-- Python dict lookup `d.get(k)` on an association list. -/
def pyDictGet {κ : Type} {β : Type} [BEq κ] (d : List (κ × β)) (k : κ) :
    Option β :=
  (d.find? (fun pr => pr.1 == k)).map Prod.snd

/-- A response dict.  `PREDICTION_MAP` entries populate the first three
fields; `response.update({...})` (app.py 113-117) fills the last three. -/
structure Desc where
  label : Option String
  severity : Option String
  remedy : Option (List String)
  confidence : Option String
  prediction_code : Option ℤ
  explanations : Option (List String)
deriving DecidableEq, Repr

/-- The static condition-descriptor map `PREDICTION_MAP` (app.py 55-60). -/
def PREDICTION_MAP : List (ℤ × Desc) :=
  [ (100, { label := some "Optimal", severity := some "low",
            remedy := some ["System is operating optimally."],
            confidence := none, prediction_code := none,
            explanations := none }),
    (90, { label := some "Small Lag", severity := some "medium",
           remedy := some ["Inspect valve for contamination.",
                           "Check pilot pressure."],
           confidence := none, prediction_code := none,
           explanations := none }),
    (80, { label := some "Severe Lag", severity := some "high",
           remedy := some ["Schedule valve inspection.",
                           "Check for internal leakage.",
                           "Verify solenoid signal."],
           confidence := none, prediction_code := none,
           explanations := none }),
    (73, { label := some "Close to Total Failure", severity := some "critical",
           remedy := some ["System shutdown recommended.",
                           "Replace valve immediately."],
           confidence := none, prediction_code := none,
           explanations := none }) ]

/-- The fitted scikit-learn classifier, abstract as in the spec: a class
list plus prediction functions that may raise (`Except.error`). -/
structure SklearnModel where
  classes_ : List ℤ
  predictFn : List FVal → Except String ℤ
  probaFn : List FVal → Except String (List ℚ)

/-- The SHAP explainer, abstract: from a feature row to the attribution
matrix `values[0]` of shape features × classes. -/
structure ShapExplainer where
  shapFn : List FVal → Except String (List (List ℚ))

/-- Module-level state of `app.py`: the loaded model and explainer (either
may have failed to load), the range table, the expected feature names and
the descriptor map. -/
structure ServerState where
  model : Option SklearnModel
  explainer : Option ShapExplainer
  normal_ranges : List (String × (ℚ × ℚ))
  EXPECTED_FEATURES : List String
  PREDICTION_MAP : List (ℤ × Desc)

/-- Request payload as parsed by `request.get_json()`: `none` for a
non-JSON body, otherwise a dict that may or may not hold a `features`
dict mapping feature names to numbers. -/
abbrev ReqData := List (String × List (String × ℚ))

/-- The HTTP reply: a status code and either a response dict or an error
message (`jsonify({'error': ...})`). -/
structure HttpResult where
  status : ℕ
  body : Desc ⊕ String
deriving DecidableEq

/-- `pd.DataFrame([data['features']], columns=EXPECTED_FEATURES)` reduced
to its single row (app.py line 89): one cell per expected feature, in the
canonical order; a name absent from the payload yields a NaN cell. -/
def mkRow (expected : List String) (fmap : List (String × ℚ)) : List FVal :=
  expected.map (fun nm => pyDictGet fmap nm)

/-- `np.where(model.classes_ == predicted_class)[0][0]` (app.py line 94):
the first position of the predicted class in the class list, `none` when
absent (an IndexError in Python). -/
def np_where_first (classes : List ℤ) (c : ℤ) : Option ℕ :=
  (List.range classes.length).find? (fun i => classes.getD i 0 == c)

/-- `shap_values_obj.values[0, :, class_index]` (app.py line 98): the
column of the attribution matrix at the class index; `none` on an
out-of-bounds index. -/
def shapColumn (sm : List (List ℚ)) (ci : ℕ) : Option (List ℚ) :=
  sm.mapM (fun row => row.get? ci)

/-- The explanation loop body over the already-ranked indices (app.py
103-110): look the feature name and value up by position, fetch its range
and render the text; the first failure propagates like the Python
exception. -/
def build_explanations_go (expected : List String) (row : List FVal)
    (ranges : List (String × (ℚ × ℚ))) : List ℕ → Except String (List String)
  | [] => .ok []
  | i :: rest =>
    match expected.get? i with
    | none => .error "IndexError"
    | some feature_name =>
      match row.get? i with
      | none => .error "IndexError"
      | some value =>
        match generate_text_explanation feature_name value
            (pyDictGet ranges feature_name) with
        | none => .error "IndexError"
        | some txt =>
          match build_explanations_go expected row ranges rest with
          | .error e => .error e
          | .ok out => .ok (txt :: out)

/-- The full explanation stage of the handler (app.py 100-110): rank the
attributions and render one text per selected feature. -/
def build_explanations (expected : List String) (row : List FVal)
    (ranges : List (String × (ℚ × ℚ))) (shapv : List ℚ) :
    Except String (List String) :=
  build_explanations_go expected row ranges (top_indices shapv)

/-- Response assembly (app.py 112-117).  `PREDICTION_MAP.get(predicted_class, {})`
returns the dict object stored in the map when the code is known, and
`response.update({...})` mutates that shared object in place; so for a
known code the returned state carries the updated entry.  For an unknown
code a fresh empty dict is built and the map is untouched. -/
def assemble (pmap : List (ℤ × Desc)) (code : ℤ) (conf : String)
    (expls : List String) : Desc × List (ℤ × Desc) :=
  match pyDictGet pmap code with
  | some d =>
    let d2 := { d with confidence := some conf,
                       prediction_code := some code,
                       explanations := some expls }
    (d2, pmap.map (fun pr => if pr.1 == code then (pr.1, d2) else pr))
  | none =>
    ({ label := none, severity := none, remedy := none,
       confidence := some conf, prediction_code := some code,
       explanations := some expls }, pmap)

/-- The `/predict` handler (app.py 80-121) as a pure function from the
server state and the parsed request body to the HTTP reply and the state
after the request.  Every `return jsonify(...)` branch of the source is one
branch here; any exception inside the `try` block surfaces as a 500 reply
with the exception text. -/
def predict (st : ServerState) (data : Option ReqData) :
    HttpResult × ServerState :=
  match st.model, st.explainer with
  | some m, some ex =>
    match data with
    | none => (⟨400, .inr "Invalid input: \x22features\x22 key missing"⟩, st)
    | some d =>
      if d = [] then
        (⟨400, .inr "Invalid input: \x22features\x22 key missing"⟩, st)
      else
        match pyDictGet d "features" with
        | none => (⟨400, .inr "Invalid input: \x22features\x22 key missing"⟩, st)
        | some fmap =>
          let row := mkRow st.EXPECTED_FEATURES fmap
          match m.predictFn row with
          | .error e => (⟨500, .inr e⟩, st)
          | .ok predicted =>
            match m.probaFn row with
            | .error e => (⟨500, .inr e⟩, st)
            | .ok proba =>
              match np_where_first m.classes_ predicted with
              | none => (⟨500, .inr "IndexError"⟩, st)
              | some ci =>
                match proba.get? ci with
                | none => (⟨500, .inr "IndexError"⟩, st)
                | some conf =>
                  match ex.shapFn row with
                  | .error e => (⟨500, .inr e⟩, st)
                  | .ok sm =>
                    match shapColumn sm ci with
                    | none => (⟨500, .inr "IndexError"⟩, st)
                    | some shapv =>
                      match build_explanations st.EXPECTED_FEATURES row
                          st.normal_ranges shapv with
                      | .error e => (⟨500, .inr e⟩, st)
                      | .ok expls =>
                        let res := assemble st.PREDICTION_MAP predicted
                          (fmt2 conf) expls
                        (⟨200, .inl res.1⟩,
                         { st with PREDICTION_MAP := res.2 })
  | _, _ => (⟨500, .inr "Model or Explainer not loaded"⟩, st)

/-! ## Branch behaviour of the Explanation Generator -/

/-- Unfolding of the low branch. -/
theorem gte_eq_low {feature_name sensor : String} {rest : List String}
    {v lb ub : ℚ} (hparts : pyTitleParts feature_name = sensor :: rest)
    (h : v < lb) :
    generate_text_explanation feature_name (some v) (some (lb, ub)) =
      some (lowText (String.intercalate " " rest) sensor (some v) lb ub) := by
  unfold generate_text_explanation
  rw [hparts]
  simp [fvalLt, h]

/-- Unfolding of the high branch (for a well-formed range). -/
theorem gte_eq_high {feature_name sensor : String} {rest : List String}
    {v lb ub : ℚ} (hparts : pyTitleParts feature_name = sensor :: rest)
    (hlu : lb ≤ ub) (h : ub < v) :
    generate_text_explanation feature_name (some v) (some (lb, ub)) =
      some (highText (String.intercalate " " rest) sensor (some v) lb ub) := by
  unfold generate_text_explanation
  rw [hparts]
  have hnl : ¬ v < lb := not_lt.mpr (le_trans hlu (le_of_lt h))
  simp [fvalLt, fvalGt, hnl, h]

/-- Unfolding of the within branch. -/
theorem gte_eq_within {feature_name sensor : String} {rest : List String}
    {v lb ub : ℚ} (hparts : pyTitleParts feature_name = sensor :: rest)
    (h3 : lb ≤ v) (h4 : v ≤ ub) :
    generate_text_explanation feature_name (some v) (some (lb, ub)) =
      some (withinText (String.intercalate " " rest) sensor (some v)) := by
  unfold generate_text_explanation
  rw [hparts]
  simp [fvalLt, fvalGt, not_lt.mpr h3, not_lt.mpr h4]

/-- Unfolding of the unknown-range branch. -/
theorem gte_eq_generic {feature_name sensor : String} {rest : List String}
    (hparts : pyTitleParts feature_name = sensor :: rest) (v : FVal) :
    generate_text_explanation feature_name v none =
      some (genericText (String.intercalate " " rest) sensor) := by
  unfold generate_text_explanation
  rw [hparts]

/-- The low template carries the low marker, the value and the range. -/
theorem lowText_contains (metric sensor : String) (v : ℚ) (lb ub : ℚ) :
    containsStr (lowText metric sensor (some v) lb ub) "unusually **low**" ∧
    containsStr (lowText metric sensor (some v) lb ub) (fmt2 v) ∧
    containsStr (lowText metric sensor (some v) lb ub)
      ("normal range of " ++ (fmt2 lb ++ " - " ++ fmt2 ub)) := by
  unfold lowText
  refine ⟨?_, ?_, ?_⟩
  · apply containsStr_left
    apply containsStr_left
    apply containsStr_left
    apply containsStr_left
    apply containsStr_left
    apply containsStr_left
    apply containsStr_left
    exact containsStr_right _ (containsStr_self _)
  · apply containsStr_left
    apply containsStr_left
    apply containsStr_left
    apply containsStr_left
    apply containsStr_left
    exact containsStr_right _ (containsStr_self _)
  · apply containsStr_left
    rw [String.append_assoc]
    exact containsStr_right _ (containsStr_self _)

/-- The high template carries the high marker, the value and the range. -/
theorem highText_contains (metric sensor : String) (v : ℚ) (lb ub : ℚ) :
    containsStr (highText metric sensor (some v) lb ub) "unusually **high**" ∧
    containsStr (highText metric sensor (some v) lb ub) (fmt2 v) ∧
    containsStr (highText metric sensor (some v) lb ub)
      ("normal range of " ++ (fmt2 lb ++ " - " ++ fmt2 ub)) := by
  unfold highText
  refine ⟨?_, ?_, ?_⟩
  · apply containsStr_left
    apply containsStr_left
    apply containsStr_left
    apply containsStr_left
    apply containsStr_left
    apply containsStr_left
    apply containsStr_left
    exact containsStr_right _ (containsStr_self _)
  · apply containsStr_left
    apply containsStr_left
    apply containsStr_left
    apply containsStr_left
    apply containsStr_left
    exact containsStr_right _ (containsStr_self _)
  · apply containsStr_left
    rw [String.append_assoc]
    exact containsStr_right _ (containsStr_self _)

/-- The within template carries the within marker and the value. -/
theorem withinText_contains (metric sensor : String) (v : ℚ) :
    containsStr (withinText metric sensor (some v)) "within" ∧
    containsStr (withinText metric sensor (some v)) "normal range" ∧
    containsStr (withinText metric sensor (some v)) (fmt2 v) := by
  unfold withinText
  refine ⟨?_, ?_, ?_⟩
  · apply containsStr_left
    apply containsStr_left
    apply containsStr_left
    apply containsStr_left
    exact containsStr_right _ (containsStr_self _)
  · apply containsStr_left
    apply containsStr_left
    exact containsStr_right _ (containsStr_self _)
  · apply containsStr_left
    apply containsStr_left
    apply containsStr_left
    apply containsStr_left
    apply containsStr_left
    apply containsStr_left
    exact containsStr_right _ (containsStr_self _)

/-- C2: for a known range the Explanation Generator classifies the observed
value against the bounds and names the value and the range in the rendered
statement; with no known range it renders the generic significant-factor
statement with no numeric bounds (the template mentions no number at all).
The low/high markers appear as "unusually **low**" / "unusually **high**"
(the word is wrapped in markdown emphasis in the source template). -/
theorem C2_range_qualification (feature_name sensor : String)
    (rest : List String) (v1 v2 v3 lb ub : ℚ)
    (hparts : pyTitleParts feature_name = sensor :: rest)
    (hlu : lb ≤ ub) (h1 : v1 < lb) (h2 : ub < v2) (h3 : lb ≤ v3)
    (h4 : v3 ≤ ub) :
    (generate_text_explanation feature_name (some v1) (some (lb, ub)) =
        some (lowText (String.intercalate " " rest) sensor (some v1) lb ub) ∧
      containsStr (lowText (String.intercalate " " rest) sensor (some v1) lb ub)
        "unusually **low**" ∧
      containsStr (lowText (String.intercalate " " rest) sensor (some v1) lb ub)
        (fmt2 v1) ∧
      containsStr (lowText (String.intercalate " " rest) sensor (some v1) lb ub)
        ("normal range of " ++ (fmt2 lb ++ " - " ++ fmt2 ub))) ∧
    (generate_text_explanation feature_name (some v2) (some (lb, ub)) =
        some (highText (String.intercalate " " rest) sensor (some v2) lb ub) ∧
      containsStr (highText (String.intercalate " " rest) sensor (some v2) lb ub)
        "unusually **high**" ∧
      containsStr (highText (String.intercalate " " rest) sensor (some v2) lb ub)
        (fmt2 v2) ∧
      containsStr (highText (String.intercalate " " rest) sensor (some v2) lb ub)
        ("normal range of " ++ (fmt2 lb ++ " - " ++ fmt2 ub))) ∧
    (generate_text_explanation feature_name (some v3) (some (lb, ub)) =
        some (withinText (String.intercalate " " rest) sensor (some v3)) ∧
      containsStr (withinText (String.intercalate " " rest) sensor (some v3))
        "within" ∧
      containsStr (withinText (String.intercalate " " rest) sensor (some v3))
        "normal range") ∧
    generate_text_explanation feature_name (some v3) none =
      some (genericText (String.intercalate " " rest) sensor) := by
  obtain ⟨cl1, cl2, cl3⟩ := lowText_contains (String.intercalate " " rest)
    sensor v1 lb ub
  obtain ⟨ch1, ch2, ch3⟩ := highText_contains (String.intercalate " " rest)
    sensor v2 lb ub
  obtain ⟨cw1, cw2, _⟩ := withinText_contains (String.intercalate " " rest)
    sensor v3
  exact ⟨⟨gte_eq_low hparts h1, cl1, cl2, cl3⟩,
    ⟨gte_eq_high hparts hlu h2, ch1, ch2, ch3⟩,
    ⟨gte_eq_within hparts h3 h4, cw1, cw2⟩,
    gte_eq_generic hparts _⟩

/-- Witness for C2 with the spec's own test values: feature `PS1_mean`,
range (10, 20) and the observed values 5 (low), 50 (high) and 15 (within). -/
theorem C2_range_qualification_witness :
    (pyTitleParts "PS1_mean" = "Ps1" :: ["Mean"] ∧ (10 : ℚ) ≤ 20 ∧
      (5 : ℚ) < 10 ∧ (20 : ℚ) < 50 ∧ (10 : ℚ) ≤ 15 ∧ (15 : ℚ) ≤ 20) ∧
    ((generate_text_explanation "PS1_mean" (some 5) (some (10, 20)) =
        some (lowText (String.intercalate " " ["Mean"]) "Ps1" (some 5) 10 20) ∧
      containsStr (lowText (String.intercalate " " ["Mean"]) "Ps1" (some 5) 10 20)
        "unusually **low**" ∧
      containsStr (lowText (String.intercalate " " ["Mean"]) "Ps1" (some 5) 10 20)
        (fmt2 5) ∧
      containsStr (lowText (String.intercalate " " ["Mean"]) "Ps1" (some 5) 10 20)
        ("normal range of " ++ (fmt2 10 ++ " - " ++ fmt2 20))) ∧
    (generate_text_explanation "PS1_mean" (some 50) (some (10, 20)) =
        some (highText (String.intercalate " " ["Mean"]) "Ps1" (some 50) 10 20) ∧
      containsStr (highText (String.intercalate " " ["Mean"]) "Ps1" (some 50) 10 20)
        "unusually **high**" ∧
      containsStr (highText (String.intercalate " " ["Mean"]) "Ps1" (some 50) 10 20)
        (fmt2 50) ∧
      containsStr (highText (String.intercalate " " ["Mean"]) "Ps1" (some 50) 10 20)
        ("normal range of " ++ (fmt2 10 ++ " - " ++ fmt2 20))) ∧
    (generate_text_explanation "PS1_mean" (some 15) (some (10, 20)) =
        some (withinText (String.intercalate " " ["Mean"]) "Ps1" (some 15)) ∧
      containsStr (withinText (String.intercalate " " ["Mean"]) "Ps1" (some 15))
        "within" ∧
      containsStr (withinText (String.intercalate " " ["Mean"]) "Ps1" (some 15))
        "normal range") ∧
    generate_text_explanation "PS1_mean" (some 15) none =
      some (genericText (String.intercalate " " ["Mean"]) "Ps1")) :=
  ⟨⟨by decide, by decide, by decide, by decide, by decide, by decide⟩,
    C2_range_qualification "PS1_mean" "Ps1" ["Mean"] 5 50 15 10 20
      (by decide) (by decide) (by decide) (by decide) (by decide) (by decide)⟩

/-- C10: a value exactly equal to the lower or to the upper bound falls
into the within-range branch, because the source compares with strict
`<` and `>`. -/
theorem C10_boundary_is_within (feature_name sensor : String)
    (rest : List String) (lb ub : ℚ)
    (hparts : pyTitleParts feature_name = sensor :: rest) (hlu : lb ≤ ub) :
    generate_text_explanation feature_name (some lb) (some (lb, ub)) =
      some (withinText (String.intercalate " " rest) sensor (some lb)) ∧
    generate_text_explanation feature_name (some ub) (some (lb, ub)) =
      some (withinText (String.intercalate " " rest) sensor (some ub)) :=
  ⟨gte_eq_within hparts le_rfl hlu, gte_eq_within hparts hlu le_rfl⟩

/-- Witness for C10 at feature `PS1_mean` with range (10, 20): both
boundary values 10 and 20 render the within-range statement. -/
theorem C10_boundary_is_within_witness :
    (pyTitleParts "PS1_mean" = "Ps1" :: ["Mean"] ∧ (10 : ℚ) ≤ 20) ∧
    (generate_text_explanation "PS1_mean" (some 10) (some (10, 20)) =
        some (withinText (String.intercalate " " ["Mean"]) "Ps1" (some 10)) ∧
      generate_text_explanation "PS1_mean" (some 20) (some (10, 20)) =
        some (withinText (String.intercalate " " ["Mean"]) "Ps1" (some 20))) :=
  ⟨⟨by decide, by decide⟩,
    C10_boundary_is_within "PS1_mean" "Ps1" ["Mean"] 10 20 (by decide)
      (by decide)⟩

/-! ## C8: startup failure -/

/-- Reply of the handler when a startup artifact is missing. -/
theorem predict_unloaded (st : ServerState) (data : Option ReqData)
    (h : st.model = none ∨ st.explainer = none) :
    predict st data = (⟨500, .inr "Model or Explainer not loaded"⟩, st) := by
  cases hm : st.model with
  | none => simp [predict, hm]
  | some m =>
    cases he : st.explainer with
    | none => simp [predict, hm, he]
    | some e =>
      rcases h with h | h
      · rw [hm] at h; exact absurd h (by simp)
      · rw [he] at h; exact absurd h (by simp)

/-- C8: if the model or the explainer failed to load, every request gets
the 500 "Model or Explainer not loaded" error reply — distinguishable from
the 200 success case — the handler still returns normally (it is a total
function) and the server state is untouched. -/
theorem C8_startup_failure_rejected (st : ServerState) (data : Option ReqData)
    (h : st.model = none ∨ st.explainer = none) :
    (predict st data).1.status = 500 ∧
    (predict st data).1.body = .inr "Model or Explainer not loaded" ∧
    (predict st data).1.status ≠ 200 ∧
    (predict st data).2 = st := by
  rw [predict_unloaded st data h]
  exact ⟨rfl, rfl, by simp, rfl⟩

/-- A server state whose model and explainer failed to load. -/
def downState : ServerState :=
  { model := none, explainer := none, normal_ranges := [],
    EXPECTED_FEATURES := [], PREDICTION_MAP := PREDICTION_MAP }

/-- Witness for C8: the unloaded demo state rejects a request with the
service-unavailable reply. -/
theorem C8_startup_failure_rejected_witness :
    (downState.model = none ∨ downState.explainer = none) ∧
    ((predict downState none).1.status = 500 ∧
      (predict downState none).1.body = .inr "Model or Explainer not loaded" ∧
      (predict downState none).1.status ≠ 200 ∧
      (predict downState none).2 = downState) :=
  ⟨Or.inl rfl, C8_startup_failure_rejected downState none (Or.inl rfl)⟩

/-! ## C6: column-wise concatenation of per-sensor feature tables -/

/-- C6 evaluation: `pd.concat(axis=1)` on two sensor tables with two
cycles and one cycle respectively does not fail — the shorter table is
silently padded with a NaN cell in the second row — and in general the
concatenation is total with as many rows as the longest table. -/
theorem C6_concat_pads_mismatch :
    pd_concat_outer [[[1], [2]], [[5]]] =
      [[some 1, some 5], [some 2, none]] ∧
    ∀ tables : List (List (List ℚ)),
      (pd_concat_outer tables).length = (tables.map List.length).foldr max 0 := by
  constructor
  · decide
  · intro tables
    simp [pd_concat_outer]

/-! ## C4: the 5th percentile never exceeds the 95th percentile -/

/-- Entries of a `≤`-sorted list are monotone in the index. -/
theorem sorted_getD_le {s : List ℚ} (hs : List.Pairwise (· ≤ ·) s) {a b : ℕ}
    (hab : a ≤ b) (hb : b < s.length) : s.getD a 0 ≤ s.getD b 0 := by
  rcases eq_or_lt_of_le hab with rfl | hlt
  · exact le_refl _
  · have ha : a < s.length := lt_trans hlt hb
    rw [List.getD_eq_getElem s 0 ha, List.getD_eq_getElem s 0 hb]
    have h := List.pairwise_iff_get.mp hs ⟨a, ha⟩ ⟨b, hb⟩ (Fin.mk_lt_mk.mpr hlt)
    simpa using h

/-- Linear-interpolation quantiles are monotone in the probability: the
interpolated value at `p₁` is at most the one at `p₂` for
`0 ≤ p₁ ≤ p₂ ≤ 1` on a non-empty series. -/
theorem pd_quantile_mono (xs : List ℚ) (hne : xs ≠ []) (p₁ p₂ : ℚ)
    (hp0 : 0 ≤ p₁) (hp12 : p₁ ≤ p₂) (hp1 : p₂ ≤ 1) :
    ∃ a b, pd_quantile xs p₁ = some a ∧ pd_quantile xs p₂ = some b ∧
      a ≤ b := by
  obtain ⟨x, t, rfl⟩ := List.exists_cons_of_ne_nil hne
  have hsort : List.Pairwise (· ≤ ·) (List.insertionSort (· ≤ ·) (x :: t)) :=
    List.sorted_insertionSort (· ≤ ·) (x :: t)
  set s : List ℚ := List.insertionSort (· ≤ ·) (x :: t) with hs
  have hlen : s.length = t.length + 1 := by
    simpa using (List.perm_insertionSort (· ≤ ·) (x :: t)).length_eq
  set n : ℕ := s.length with hn
  have hn1 : 1 ≤ n := by omega
  have hcast : (1 : ℚ) ≤ (n : ℚ) := by exact_mod_cast hn1
  have hnn : (0 : ℚ) ≤ (n : ℚ) - 1 := by linarith
  set pos₁ : ℚ := p₁ * ((n : ℚ) - 1) with hpos₁
  set pos₂ : ℚ := p₂ * ((n : ℚ) - 1) with hpos₂
  have h12 : pos₁ ≤ pos₂ := mul_le_mul_of_nonneg_right hp12 hnn
  have h1nn : 0 ≤ pos₁ := mul_nonneg hp0 hnn
  have h2nn : 0 ≤ pos₂ := le_trans h1nn h12
  have h2le : pos₂ ≤ (n : ℚ) - 1 := by
    calc pos₂ ≤ 1 * ((n : ℚ) - 1) := mul_le_mul_of_nonneg_right hp1 hnn
    _ = (n : ℚ) - 1 := one_mul _
  set i₁ : ℕ := (⌊pos₁⌋).toNat with hi₁
  set i₂ : ℕ := (⌊pos₂⌋).toNat with hi₂
  have hf1 : (0 : ℤ) ≤ ⌊pos₁⌋ := Int.floor_nonneg.mpr h1nn
  have hf2 : (0 : ℤ) ≤ ⌊pos₂⌋ := Int.floor_nonneg.mpr h2nn
  have hi₁z : ((i₁ : ℤ)) = ⌊pos₁⌋ := by rw [hi₁]; exact Int.toNat_of_nonneg hf1
  have hi₂z : ((i₂ : ℤ)) = ⌊pos₂⌋ := by rw [hi₂]; exact Int.toNat_of_nonneg hf2
  have hi₁q : ((i₁ : ℚ)) ≤ pos₁ := by
    have h := Int.floor_le pos₁
    rw [← hi₁z] at h
    exact_mod_cast h
  have hi₂q : ((i₂ : ℚ)) ≤ pos₂ := by
    have h := Int.floor_le pos₂
    rw [← hi₂z] at h
    exact_mod_cast h
  have hi₁lt : pos₁ < (i₁ : ℚ) + 1 := by
    have h := Int.lt_floor_add_one pos₁
    rw [← hi₁z] at h
    exact_mod_cast h
  have hfl2n : ⌊pos₂⌋ ≤ (n : ℤ) - 1 := by
    have h := Int.floor_mono h2le
    rwa [show ((n : ℚ) - 1) = (((n : ℤ) - 1 : ℤ) : ℚ) by push_cast; ring,
      Int.floor_intCast] at h
  have hi₂lt : i₂ < n := by omega
  have hi12 : i₁ ≤ i₂ := by
    have h := Int.floor_mono h12
    omega
  set j₁ : ℕ := min (i₁ + 1) (n - 1) with hj₁
  set j₂ : ℕ := min (i₂ + 1) (n - 1) with hj₂
  have hj₁lt : j₁ < n := by omega
  have hj₂lt : j₂ < n := by omega
  have hij₁ : i₁ ≤ j₁ := by omega
  have hij₂ : i₂ ≤ j₂ := by omega
  have hd₁ : 0 ≤ s.getD j₁ 0 - s.getD i₁ 0 :=
    sub_nonneg.mpr (sorted_getD_le hsort hij₁ hj₁lt)
  have hd₂ : 0 ≤ s.getD j₂ 0 - s.getD i₂ 0 :=
    sub_nonneg.mpr (sorted_getD_le hsort hij₂ hj₂lt)
  refine ⟨s.getD i₁ 0 + (pos₁ - (i₁ : ℚ)) * (s.getD j₁ 0 - s.getD i₁ 0),
    s.getD i₂ 0 + (pos₂ - (i₂ : ℚ)) * (s.getD j₂ 0 - s.getD i₂ 0),
    rfl, rfl, ?_⟩
  rcases eq_or_lt_of_le hi12 with heq | hlt
  · have hjeq : j₁ = j₂ := by rw [hj₁, hj₂, heq]
    rw [heq, hjeq]
    have hmul := mul_le_mul_of_nonneg_right
      (show pos₁ - (i₂ : ℚ) ≤ pos₂ - (i₂ : ℚ) by linarith) hd₂
    linarith
  · have hstepA : s.getD i₁ 0 + (pos₁ - (i₁ : ℚ)) *
        (s.getD j₁ 0 - s.getD i₁ 0) ≤ s.getD j₁ 0 := by
      have hfle : pos₁ - (i₁ : ℚ) ≤ 1 := by linarith
      have h := mul_le_of_le_one_left hd₁ hfle
      linarith
    have hstepB : s.getD j₁ 0 ≤ s.getD i₂ 0 :=
      sorted_getD_le hsort (by omega) hi₂lt
    have hstepC : s.getD i₂ 0 ≤ s.getD i₂ 0 + (pos₂ - (i₂ : ℚ)) *
        (s.getD j₂ 0 - s.getD i₂ 0) := by
      nlinarith [mul_nonneg (show (0 : ℚ) ≤ pos₂ - (i₂ : ℚ) by linarith) hd₂]
    linarith

/-- C4: whenever the nominal-labeled subset of a feature column is
non-empty, the produced NormalRange entry exists and its lower bound (5th
percentile) does not exceed its upper bound (95th percentile). -/
theorem C4_normal_range_ordered (vals : List ℚ) (labels : List ℤ)
    (hne : filterNominal vals labels ≠ []) :
    ∃ lower_bound upper_bound,
      normal_range_entry vals labels = some (lower_bound, upper_bound) ∧
      lower_bound ≤ upper_bound := by
  obtain ⟨a, b, ha, hb, hab⟩ :=
    pd_quantile_mono (filterNominal vals labels) hne (1/20) (19/20)
      (by norm_num) (by norm_num) (by norm_num)
  refine ⟨a, b, ?_, hab⟩
  unfold normal_range_entry
  rw [ha, hb]

/-- Witness for C4 on a column with three cycles, two of them labeled with
the nominal condition code 100. -/
theorem C4_normal_range_ordered_witness :
    filterNominal [3, 1, 2] [100, 100, 90] ≠ [] ∧
    ∃ lower_bound upper_bound,
      normal_range_entry [3, 1, 2] [100, 100, 90] =
        some (lower_bound, upper_bound) ∧
      lower_bound ≤ upper_bound :=
  ⟨by decide, C4_normal_range_ordered [3, 1, 2] [100, 100, 90] (by decide)⟩

/-! ## Walking the request handler -/

/-- The handler on the full success path: every stage of the pipeline
succeeds, so the reply is 200 with the assembled response and the state
carries the descriptor map returned by the assembly step. -/
theorem predict_success (st : ServerState) (d : ReqData) (m : SklearnModel)
    (ex : ShapExplainer) (fmap : List (String × ℚ)) (predicted : ℤ)
    (proba : List ℚ) (ci : ℕ) (conf : ℚ) (sm : List (List ℚ))
    (shapv : List ℚ) (expls : List String)
    (hm : st.model = some m) (hex : st.explainer = some ex)
    (hd : ¬ d = []) (hf : pyDictGet d "features" = some fmap)
    (hpred : m.predictFn (mkRow st.EXPECTED_FEATURES fmap) = .ok predicted)
    (hproba : m.probaFn (mkRow st.EXPECTED_FEATURES fmap) = .ok proba)
    (hci : np_where_first m.classes_ predicted = some ci)
    (hconf : proba.get? ci = some conf)
    (hshap : ex.shapFn (mkRow st.EXPECTED_FEATURES fmap) = .ok sm)
    (hcol : shapColumn sm ci = some shapv)
    (hexpl : build_explanations st.EXPECTED_FEATURES
      (mkRow st.EXPECTED_FEATURES fmap) st.normal_ranges shapv = .ok expls) :
    predict st (some d) =
      (⟨200, .inl (assemble st.PREDICTION_MAP predicted (fmt2 conf) expls).1⟩,
        { st with PREDICTION_MAP :=
            (assemble st.PREDICTION_MAP predicted (fmt2 conf) expls).2 }) := by
  unfold predict
  rw [hm, hex]
  simp only [hf, hpred, hproba, hci, hconf, hshap, hcol, hexpl, if_neg hd]

/-- `np.where(classes == c)[0][0]` returns an index of the class list
whose entry is the searched class. -/
theorem np_where_first_spec {classes : List ℤ} {c : ℤ} {ci : ℕ}
    (h : np_where_first classes c = some ci) :
    ci < classes.length ∧ classes.getD ci 0 = c := by
  unfold np_where_first at h
  have h1 := List.find?_some h
  have h2 := List.mem_of_find?_eq_some h
  exact ⟨List.mem_range.mp h2, by simpa using h1⟩

/-- The assembled response always reports the formatted confidence that
was passed in. -/
theorem assemble_confidence (pmap : List (ℤ × Desc)) (code : ℤ)
    (conf : String) (expls : List String) :
    (assemble pmap code conf expls).1.confidence = some conf := by
  unfold assemble
  rcases pyDictGet pmap code with _ | d <;> rfl

/-- Response assembly for a code that is absent from the descriptor map:
a fresh empty descriptor is populated and the map is left unchanged. -/
theorem assemble_unknown (pmap : List (ℤ × Desc)) (code : ℤ) (conf : String)
    (expls : List String) (h : pyDictGet pmap code = none) :
    assemble pmap code conf expls =
      ({ label := none, severity := none, remedy := none,
         confidence := some conf, prediction_code := some code,
         explanations := some expls }, pmap) := by
  unfold assemble
  rw [h]

/-! ## C3: the confidence is the probability at the predicted class's index -/

/-- C3: on a successful request the reported confidence is the probability
entry at the first index of the predicted ConditionCode in the classifier's
class list — by construction, the entry looked up at `class_index`, not the
maximum of the probability vector. -/
theorem C3_confidence_at_class_index (st : ServerState) (d : ReqData)
    (m : SklearnModel) (ex : ShapExplainer) (fmap : List (String × ℚ))
    (predicted : ℤ) (proba : List ℚ) (ci : ℕ) (conf : ℚ)
    (sm : List (List ℚ)) (shapv : List ℚ)
    (hm : st.model = some m) (hex : st.explainer = some ex)
    (hd : ¬ d = []) (hf : pyDictGet d "features" = some fmap)
    (hpred : m.predictFn (mkRow st.EXPECTED_FEATURES fmap) = .ok predicted)
    (hproba : m.probaFn (mkRow st.EXPECTED_FEATURES fmap) = .ok proba)
    (hci : np_where_first m.classes_ predicted = some ci)
    (hconf : proba.get? ci = some conf)
    (hshap : ex.shapFn (mkRow st.EXPECTED_FEATURES fmap) = .ok sm)
    (hcol : shapColumn sm ci = some shapv)
    (hexpl : ∃ expls, build_explanations st.EXPECTED_FEATURES
      (mkRow st.EXPECTED_FEATURES fmap) st.normal_ranges shapv = .ok expls) :
    ∃ resp : Desc, (predict st (some d)).1 = ⟨200, .inl resp⟩ ∧
      resp.confidence = some (fmt2 conf) ∧
      ci < m.classes_.length ∧ m.classes_.getD ci 0 = predicted := by
  obtain ⟨expls, hexpl⟩ := hexpl
  rw [predict_success st d m ex fmap predicted proba ci conf sm shapv expls
    hm hex hd hf hpred hproba hci hconf hshap hcol hexpl]
  obtain ⟨hlt, heq⟩ := np_where_first_spec hci
  exact ⟨_, rfl, assemble_confidence _ _ _ _, hlt, heq⟩

/-- Demo classifier for the witnesses: predicts class 100 whose own
probability entry (3) is not the maximum of the vector (7). -/
def demoModel3 : SklearnModel :=
  { classes_ := [100, 90], predictFn := fun _ => .ok 100,
    probaFn := fun _ => .ok [3, 7] }

/-- Demo explainer: three features, two classes. -/
def demoExplainer3 : ShapExplainer :=
  { shapFn := fun _ => .ok [[2, 0], [-1, 0], [4, 0]] }

/-- Demo feature payload. -/
def demoFmap3 : List (String × ℚ) :=
  [("PS1_mean", 15), ("PS1_std", 1), ("PS1_min", 8)]

/-- Demo server state: model and explainer loaded, one known range, the
real descriptor map. -/
def demoState3 : ServerState :=
  { model := some demoModel3, explainer := some demoExplainer3,
    normal_ranges := [("PS1_mean", (10, 20))],
    EXPECTED_FEATURES := ["PS1_mean", "PS1_std", "PS1_min"],
    PREDICTION_MAP := PREDICTION_MAP }

/-- Demo request. -/
def demoReq3 : ReqData := [("features", demoFmap3)]

/-- Witness for C3: the demo classifier reports confidence `fmt2 3` (the
entry at the predicted class's index 0) although the maximum probability
is 7 at index 1. -/
theorem C3_confidence_at_class_index_witness :
    (demoState3.model = some demoModel3 ∧
      demoState3.explainer = some demoExplainer3 ∧
      ¬ demoReq3 = [] ∧ pyDictGet demoReq3 "features" = some demoFmap3 ∧
      demoModel3.predictFn (mkRow demoState3.EXPECTED_FEATURES demoFmap3) =
        .ok 100 ∧
      demoModel3.probaFn (mkRow demoState3.EXPECTED_FEATURES demoFmap3) =
        .ok [3, 7] ∧
      np_where_first demoModel3.classes_ 100 = some 0 ∧
      ([3, 7] : List ℚ).get? 0 = some 3 ∧
      demoExplainer3.shapFn (mkRow demoState3.EXPECTED_FEATURES demoFmap3) =
        .ok [[2, 0], [-1, 0], [4, 0]] ∧
      shapColumn [[2, 0], [-1, 0], [4, 0]] 0 = some [2, -1, 4] ∧
      (∃ expls, build_explanations demoState3.EXPECTED_FEATURES
        (mkRow demoState3.EXPECTED_FEATURES demoFmap3)
        demoState3.normal_ranges [2, -1, 4] = .ok expls) ∧
      (3 : ℚ) < 7) ∧
    (∃ resp : Desc, (predict demoState3 (some demoReq3)).1 = ⟨200, .inl resp⟩ ∧
      resp.confidence = some (fmt2 3) ∧
      0 < demoModel3.classes_.length ∧ demoModel3.classes_.getD 0 0 = 100) :=
  ⟨⟨rfl, rfl, by decide, rfl, rfl, rfl, rfl, rfl, rfl, rfl, ⟨_, rfl⟩,
      by decide⟩,
    C3_confidence_at_class_index demoState3 demoReq3 demoModel3 demoExplainer3
      demoFmap3 100 [3, 7] 0 3 [[2, 0], [-1, 0], [4, 0]] [2, -1, 4]
      rfl rfl (by decide) rfl rfl rfl rfl rfl rfl rfl ⟨_, rfl⟩⟩

/-! ## C9: unknown condition codes degrade gracefully -/

/-- C9: when every pipeline stage succeeds but the predicted code has no
entry in the static descriptor map, the reply is still a 200 success whose
descriptor fields (label, severity, remedy) are all empty while confidence,
prediction code and explanations are present, and the map is unchanged. -/
theorem C9_unknown_code_graceful (st : ServerState) (d : ReqData)
    (m : SklearnModel) (ex : ShapExplainer) (fmap : List (String × ℚ))
    (predicted : ℤ) (proba : List ℚ) (ci : ℕ) (conf : ℚ)
    (sm : List (List ℚ)) (shapv : List ℚ)
    (hm : st.model = some m) (hex : st.explainer = some ex)
    (hd : ¬ d = []) (hf : pyDictGet d "features" = some fmap)
    (hpred : m.predictFn (mkRow st.EXPECTED_FEATURES fmap) = .ok predicted)
    (hproba : m.probaFn (mkRow st.EXPECTED_FEATURES fmap) = .ok proba)
    (hci : np_where_first m.classes_ predicted = some ci)
    (hconf : proba.get? ci = some conf)
    (hshap : ex.shapFn (mkRow st.EXPECTED_FEATURES fmap) = .ok sm)
    (hcol : shapColumn sm ci = some shapv)
    (hexpl : ∃ expls, build_explanations st.EXPECTED_FEATURES
      (mkRow st.EXPECTED_FEATURES fmap) st.normal_ranges shapv = .ok expls)
    (hunknown : pyDictGet st.PREDICTION_MAP predicted = none) :
    (predict st (some d)).1.status = 200 ∧
    (∃ resp : Desc, (predict st (some d)).1.body = .inl resp ∧
      resp.label = none ∧ resp.severity = none ∧ resp.remedy = none ∧
      resp.confidence = some (fmt2 conf) ∧
      resp.prediction_code = some predicted ∧
      resp.explanations.isSome = true) ∧
    (predict st (some d)).2.PREDICTION_MAP = st.PREDICTION_MAP := by
  obtain ⟨expls, hexpl⟩ := hexpl
  rw [predict_success st d m ex fmap predicted proba ci conf sm shapv expls
    hm hex hd hf hpred hproba hci hconf hshap hcol hexpl,
    assemble_unknown st.PREDICTION_MAP predicted (fmt2 conf) expls hunknown]
  exact ⟨rfl, ⟨_, rfl, rfl, rfl, rfl, rfl, rfl, rfl⟩, rfl⟩

/-- Demo classifier predicting the code 42, which has no entry in the
descriptor map. -/
def demoModel9 : SklearnModel :=
  { classes_ := [42], predictFn := fun _ => .ok 42,
    probaFn := fun _ => .ok [1] }

/-- Demo explainer with a single feature and a single class. -/
def demoExplainer9 : ShapExplainer :=
  { shapFn := fun _ => .ok [[2]] }

/-- Demo server state whose classifier can produce the unmapped code 42. -/
def demoState9 : ServerState :=
  { model := some demoModel9, explainer := some demoExplainer9,
    normal_ranges := [("PS1_mean", (10, 20))],
    EXPECTED_FEATURES := ["PS1_mean"],
    PREDICTION_MAP := PREDICTION_MAP }

/-- Demo request for the unknown-code scenario. -/
def demoReq9 : ReqData := [("features", [("PS1_mean", 15)])]

/-- Witness for C9: code 42 is absent from `PREDICTION_MAP`, yet the reply
is a 200 success with an empty descriptor and the map is untouched. -/
theorem C9_unknown_code_graceful_witness :
    (demoState9.model = some demoModel9 ∧
      demoState9.explainer = some demoExplainer9 ∧
      ¬ demoReq9 = [] ∧
      pyDictGet demoReq9 "features" = some [("PS1_mean", 15)] ∧
      demoModel9.predictFn (mkRow demoState9.EXPECTED_FEATURES
        [("PS1_mean", 15)]) = .ok 42 ∧
      demoModel9.probaFn (mkRow demoState9.EXPECTED_FEATURES
        [("PS1_mean", 15)]) = .ok [1] ∧
      np_where_first demoModel9.classes_ 42 = some 0 ∧
      ([1] : List ℚ).get? 0 = some 1 ∧
      demoExplainer9.shapFn (mkRow demoState9.EXPECTED_FEATURES
        [("PS1_mean", 15)]) = .ok [[2]] ∧
      shapColumn [[2]] 0 = some [2] ∧
      (∃ expls, build_explanations demoState9.EXPECTED_FEATURES
        (mkRow demoState9.EXPECTED_FEATURES [("PS1_mean", 15)])
        demoState9.normal_ranges [2] = .ok expls) ∧
      pyDictGet demoState9.PREDICTION_MAP 42 = none) ∧
    ((predict demoState9 (some demoReq9)).1.status = 200 ∧
      (∃ resp : Desc, (predict demoState9 (some demoReq9)).1.body = .inl resp ∧
        resp.label = none ∧ resp.severity = none ∧ resp.remedy = none ∧
        resp.confidence = some (fmt2 1) ∧
        resp.prediction_code = some 42 ∧
        resp.explanations.isSome = true) ∧
      (predict demoState9 (some demoReq9)).2.PREDICTION_MAP =
        demoState9.PREDICTION_MAP) :=
  ⟨⟨rfl, rfl, by decide, rfl, rfl, rfl, rfl, rfl, rfl, rfl, ⟨_, rfl⟩, rfl⟩,
    C9_unknown_code_graceful demoState9 demoReq9 demoModel9 demoExplainer9
      [("PS1_mean", 15)] 42 [1] 0 1 [[2]] [2]
      rfl rfl (by decide) rfl rfl rfl rfl rfl rfl rfl ⟨_, rfl⟩ rfl⟩

/-! ## C5: shared state across requests -/

/-- Every branch of the handler returns the input state except for the
descriptor-map component. -/
theorem predict_state_cases (st : ServerState) (data : Option ReqData) :
    ∃ pm, (predict st data).2 = { st with PREDICTION_MAP := pm } := by
  unfold predict
  repeat' (first | split | dsimp only)
  all_goals exact ⟨_, rfl⟩

/-- C5 counterexample: handling the demo request mutates the shared
descriptor map — `PREDICTION_MAP.get(100, {})` aliases the stored dict and
`response.update({...})` writes the per-request fields into it, so the map
after the request differs from the map before it. -/
theorem C5_counterexample_descriptor_mutation :
    (predict demoState3 (some demoReq3)).2.PREDICTION_MAP ≠
      demoState3.PREDICTION_MAP := by
  decide

/-- C5 (amended): the model, explainer, range table and expected-feature
list are never mutated by a request, but the static descriptor map is not
preserved: a request whose predicted code is in the map rewrites that
entry in place. -/
theorem C5_amended_read_only_except_descriptor_map :
    (∀ (st : ServerState) (data : Option ReqData),
      ((predict st data).2).model = st.model ∧
      ((predict st data).2).explainer = st.explainer ∧
      ((predict st data).2).normal_ranges = st.normal_ranges ∧
      ((predict st data).2).EXPECTED_FEATURES = st.EXPECTED_FEATURES) ∧
    (predict demoState3 (some demoReq3)).2.PREDICTION_MAP ≠
      demoState3.PREDICTION_MAP := by
  constructor
  · intro st data
    obtain ⟨pm, hpm⟩ := predict_state_cases st data
    rw [hpm]
    exact ⟨rfl, rfl, rfl, rfl⟩
  · decide

/-! ## C7: requests missing expected features -/

/-- A scikit-learn-like classifier that raises on a NaN cell, as the real
RandomForest does. -/
def nanModel : SklearnModel :=
  { classes_ := [100],
    predictFn := fun row =>
      if row.any (fun c => c.isNone) then .error "Input contains NaN"
      else .ok 100,
    probaFn := fun _ => .ok [1] }

/-- Server state around `nanModel`. -/
def nanState : ServerState :=
  { model := some nanModel, explainer := some { shapFn := fun _ => .ok [[1]] },
    normal_ranges := [], EXPECTED_FEATURES := ["PS1_mean"],
    PREDICTION_MAP := PREDICTION_MAP }

/-- A classifier that tolerates NaN cells. -/
def permissiveModel : SklearnModel :=
  { classes_ := [100], predictFn := fun _ => .ok 100,
    probaFn := fun _ => .ok [1] }

/-- Server state around `permissiveModel`. -/
def permissiveState : ServerState :=
  { model := some permissiveModel,
    explainer := some { shapFn := fun _ => .ok [[1]] },
    normal_ranges := [], EXPECTED_FEATURES := ["PS1_mean"],
    PREDICTION_MAP := PREDICTION_MAP }

/-- A request whose `features` dict is empty: every expected name is
missing. -/
def emptyFeaturesReq : ReqData := [("features", [])]

/-- C7 counterexample: a request omitting the expected feature `PS1_mean`
is not rejected with the 400 client error.  With a NaN-raising classifier
the reply is the generic 500 computation error; with a NaN-tolerant
classifier the service even produces a 200 prediction. -/
theorem C7_counterexample_missing_feature_not_rejected :
    "PS1_mean" ∈ nanState.EXPECTED_FEATURES ∧
    pyDictGet ([] : List (String × ℚ)) "PS1_mean" = none ∧
    (predict nanState (some emptyFeaturesReq)).1 =
      ⟨500, .inr "Input contains NaN"⟩ ∧
    (predict permissiveState (some emptyFeaturesReq)).1.status = 200 := by
  refine ⟨by decide, rfl, by decide, by decide⟩

/-- C7 (amended): a well-formed request that omits expected feature names
passes the `features`-key validation; the missing names become NaN cells
in the constructed row and the handler never answers with the 400 client
error for them — the reply is a 200 prediction or a 500 computation
error, depending on the classifier. -/
theorem C7_amended_missing_feature_passes_validation (st : ServerState)
    (d : ReqData) (m : SklearnModel) (ex : ShapExplainer)
    (fmap : List (String × ℚ)) (nm : String)
    (hm : st.model = some m) (hex : st.explainer = some ex)
    (hd : ¬ d = []) (hf : pyDictGet d "features" = some fmap)
    (hnm : nm ∈ st.EXPECTED_FEATURES) (hmiss : pyDictGet fmap nm = none) :
    (none : FVal) ∈ mkRow st.EXPECTED_FEATURES fmap ∧
    (predict st (some d)).1.status ≠ 400 ∧
    ((predict st (some d)).1.status = 200 ∨
      (predict st (some d)).1.status = 500) := by
  refine ⟨List.mem_map.mpr ⟨nm, hnm, hmiss⟩, ?_, ?_⟩ <;>
    · unfold predict
      rw [hm, hex]
      simp only [if_neg hd, hf]
      repeat' (first | split | dsimp only)
      all_goals simp

/-- Witness for C7 (amended): the permissive demo state with the empty
features payload. -/
theorem C7_amended_missing_feature_passes_validation_witness :
    (permissiveState.model = some permissiveModel ∧
      permissiveState.explainer =
        some { shapFn := fun _ => .ok [[1]] } ∧
      ¬ emptyFeaturesReq = [] ∧
      pyDictGet emptyFeaturesReq "features" = some [] ∧
      "PS1_mean" ∈ permissiveState.EXPECTED_FEATURES ∧
      pyDictGet ([] : List (String × ℚ)) "PS1_mean" = none) ∧
    ((none : FVal) ∈ mkRow permissiveState.EXPECTED_FEATURES [] ∧
      (predict permissiveState (some emptyFeaturesReq)).1.status ≠ 400 ∧
      ((predict permissiveState (some emptyFeaturesReq)).1.status = 200 ∨
        (predict permissiveState (some emptyFeaturesReq)).1.status = 500)) :=
  ⟨⟨rfl, rfl, by decide, rfl, by decide, rfl⟩,
    C7_amended_missing_feature_passes_validation permissiveState
      emptyFeaturesReq permissiveModel { shapFn := fun _ => .ok [[1]] } []
      "PS1_mean" rfl rfl (by decide) rfl (by decide) rfl⟩

/-! ## C1: ranking machinery -/

/-- The ranking key of index `k` is the absolute value of the `k`-th
attribution (0 beyond the end, consistently on both sides). -/
theorem absKey_eq (v : List ℚ) (k : ℕ) : absKey v k = |v.getD k 0| := by
  unfold absKey
  by_cases hk : k < v.length
  · rw [List.getD_eq_getElem _ _ (by simpa using hk),
      List.getD_eq_getElem _ _ hk, List.getElem_map]
  · rw [List.getD_eq_default _ _ (by simpa using not_lt.mp hk),
      List.getD_eq_default _ _ (not_lt.mp hk)]
    simp

/-- `argsort` permutes the index range. -/
theorem argsortAsc_perm (keys : List ℚ) :
    (argsortAsc keys).Perm (List.range keys.length) :=
  List.perm_insertionSort _ _

/-- `argsort` keeps the index count. -/
theorem length_argsortAsc (keys : List ℚ) :
    (argsortAsc keys).length = keys.length := by
  simpa using (argsortAsc_perm keys).length_eq

/-- Every index produced by `argsort` is in bounds. -/
theorem mem_argsortAsc (keys : List ℚ) {k : ℕ} (h : k ∈ argsortAsc keys) :
    k < keys.length :=
  List.mem_range.mp ((argsortAsc_perm keys).mem_iff.mp h)

/-- `argsort` produces no duplicate index. -/
theorem nodup_argsortAsc (keys : List ℚ) : (argsortAsc keys).Nodup :=
  ((argsortAsc_perm keys).nodup_iff).mpr (List.nodup_range _)

/-- `argsort` output is sorted by ascending key. -/
theorem pairwise_argsortAsc (keys : List ℚ) :
    (argsortAsc keys).Pairwise (keyLe keys) :=
  List.sorted_insertionSort (keyLe keys) _

/-- The ranked index list has `min 3 n` entries. -/
theorem length_top_indices (v : List ℚ) :
    (top_indices v).length = min 3 v.length := by
  unfold top_indices
  rw [List.length_reverse, List.length_drop, length_argsortAsc,
    List.length_map]
  omega

/-- Every ranked index is in bounds. -/
theorem mem_top_indices {v : List ℚ} {k : ℕ} (h : k ∈ top_indices v) :
    k < v.length := by
  unfold top_indices at h
  rw [List.mem_reverse] at h
  have h2 := mem_argsortAsc _ (List.mem_of_mem_drop h)
  simpa using h2

/-- The ranked index list is ordered by descending absolute attribution. -/
theorem pairwise_top_indices (v : List ℚ) :
    (top_indices v).Pairwise (fun a b => absKey v b ≤ absKey v a) := by
  unfold top_indices
  rw [List.pairwise_reverse]
  exact List.Pairwise.sublist (List.drop_sublist _ _) (pairwise_argsortAsc _)

/-- With pairwise distinct keys, distinct in-bounds indices have distinct
key values. -/
theorem getD_ne_of_pairwise_ne {keys : List ℚ} (h : keys.Pairwise (· ≠ ·))
    {a b : ℕ} (ha : a < keys.length) (hb : b < keys.length) (hab : a ≠ b) :
    keys.getD a 0 ≠ keys.getD b 0 := by
  rcases Nat.lt_or_ge a b with hlt | hge
  · rw [List.getD_eq_getElem _ _ ha, List.getD_eq_getElem _ _ hb]
    have h2 := List.pairwise_iff_get.mp h ⟨a, ha⟩ ⟨b, hb⟩ (Fin.mk_lt_mk.mpr hlt)
    simpa using h2
  · have hlt : b < a := lt_of_le_of_ne hge (Ne.symm hab)
    rw [List.getD_eq_getElem _ _ ha, List.getD_eq_getElem _ _ hb]
    have h2 := List.pairwise_iff_get.mp h ⟨b, hb⟩ ⟨a, ha⟩ (Fin.mk_lt_mk.mpr hlt)
    have h3 : keys[b] ≠ keys[a] := by simpa using h2
    exact fun hcontra => h3 hcontra.symm

/-- With pairwise distinct keys, the `argsort` output is strictly
ascending in the key. -/
theorem argsort_pairwise_strict (keys : List ℚ)
    (hdist : keys.Pairwise (· ≠ ·)) :
    (argsortAsc keys).Pairwise
      (fun a b => keys.getD a 0 < keys.getD b 0) := by
  have hs := List.pairwise_iff_get.mp (pairwise_argsortAsc keys)
  have hn := List.pairwise_iff_get.mp (nodup_argsortAsc keys)
  rw [List.pairwise_iff_get]
  intro p q hpq
  have hle : keyLe keys ((argsortAsc keys).get p) ((argsortAsc keys).get q) :=
    hs p q hpq
  have hne := hn p q hpq
  have hpm := mem_argsortAsc keys (List.get_mem (argsortAsc keys) p.1 p.2)
  have hqm := mem_argsortAsc keys (List.get_mem (argsortAsc keys) q.1 q.2)
  exact lt_of_le_of_ne hle (getD_ne_of_pairwise_ne hdist hpm hqm hne)

/-- Two permutations of each other that are both strictly sorted by the
same key are equal. -/
theorem eq_of_perm_of_strict_sorted (K : ℕ → ℚ) :
    ∀ {l₁ l₂ : List ℕ}, l₁.Perm l₂ →
      l₁.Pairwise (fun a b => K a < K b) →
      l₂.Pairwise (fun a b => K a < K b) → l₁ = l₂ := by
  intro l₁
  induction l₁ with
  | nil =>
    intro l₂ hp _ _
    exact (hp.symm.eq_nil).symm
  | cons a t ih =>
    intro l₂ hp h1 h2
    cases l₂ with
    | nil => exact absurd hp.eq_nil (by simp)
    | cons b t₂ =>
      have hab : a = b := by
        by_contra hne
        have ha2 : a ∈ b :: t₂ := hp.mem_iff.mp (List.mem_cons_self a t)
        have hb1 : b ∈ a :: t := hp.mem_iff.mpr (List.mem_cons_self b t₂)
        have hKa : K b < K a := by
          rcases List.mem_cons.mp ha2 with h | h
          · exact absurd h hne
          · exact List.rel_of_pairwise_cons h2 h
        have hKb : K a < K b := by
          rcases List.mem_cons.mp hb1 with h | h
          · exact absurd h.symm hne
          · exact List.rel_of_pairwise_cons h1 h
        exact absurd hKb (not_lt.mpr (le_of_lt hKa))
      subst hab
      rw [ih hp.cons_inv h1.of_cons h2.of_cons]

/-- The index transposition is an involution. -/
theorem swapIdx_invol (i j k : ℕ) : swapIdx i j (swapIdx i j k) = k := by
  unfold swapIdx
  split_ifs <;> omega

/-- The index transposition preserves the bound when both swapped
positions are in bounds. -/
theorem swapIdx_lt {n i j k : ℕ} (hi : i < n) (hj : j < n) (hk : k < n) :
    swapIdx i j k < n := by
  unfold swapIdx
  split_ifs <;> assumption

/-- The index transposition is injective. -/
theorem swapIdx_inj (i j : ℕ) : Function.Injective (swapIdx i j) := by
  intro a b hab
  have h := congrArg (swapIdx i j) hab
  rwa [swapIdx_invol, swapIdx_invol] at h

/-- The transposition permutes the index range. -/
theorem map_swapIdx_range_perm {n i j : ℕ} (hi : i < n) (hj : j < n) :
    ((List.range n).map (swapIdx i j)).Perm (List.range n) := by
  apply List.perm_of_nodup_nodup_toFinset_eq
  · exact List.Nodup.map (swapIdx_inj i j) (List.nodup_range n)
  · exact List.nodup_range n
  · ext a
    simp only [List.mem_toFinset, List.mem_map, List.mem_range]
    constructor
    · rintro ⟨b, hb, rfl⟩
      exact swapIdx_lt hi hj hb
    · intro ha
      exact ⟨swapIdx i j a, swapIdx_lt hi hj ha, swapIdx_invol i j a⟩

/-- Swapping two entries keeps the length. -/
theorem swapVals_length (v : List ℚ) (i j : ℕ) :
    (swapVals v i j).length = v.length := by
  unfold swapVals
  rw [List.length_set, List.length_set]

/-- Reading the swapped list at `k` is reading the original list through
the transposition. -/
theorem swapVals_getD {v : List ℚ} {i j : ℕ} (hi : i < v.length)
    (hj : j < v.length) (k : ℕ) :
    (swapVals v i j).getD k 0 = v.getD (swapIdx i j k) 0 := by
  unfold swapVals swapIdx
  rw [List.getD_eq_getElem?_getD, List.getElem?_set, List.getElem?_set,
    List.getD_eq_getElem?_getD]
  by_cases hkj : k = j
  · subst hkj
    simp only [if_pos rfl, List.length_set, hj, if_true]
    by_cases hki : k = i
    · subst hki
      simp
    · simp [hki, Ne.symm hki]
  · by_cases hki : k = i
    · subst hki
      simp [Ne.symm hkj, hkj, hi]
    · simp [Ne.symm hkj, Ne.symm hki, hkj, hki]

/-- Swapping two attribution magnitudes permutes the `argsort` output by
the same transposition, provided the magnitudes are pairwise distinct. -/
theorem argsortAsc_swap (v : List ℚ) {i j : ℕ} (hi : i < v.length)
    (hj : j < v.length)
    (hdist : (v.map (fun x => |x|)).Pairwise (· ≠ ·)) :
    argsortAsc ((swapVals v i j).map (fun x => |x|)) =
      (argsortAsc (v.map (fun x => |x|))).map (swapIdx i j) := by
  set keys := v.map (fun x => |x|) with hkeys
  set keys' := (swapVals v i j).map (fun x => |x|) with hkeys'
  have hklen : keys.length = v.length := List.length_map _ _
  have hklen' : keys'.length = v.length := by
    rw [hkeys', List.length_map, swapVals_length]
  have hK : ∀ k, keys'.getD k 0 = keys.getD (swapIdx i j k) 0 := by
    intro k
    have e1 : keys'.getD k 0 = |(swapVals v i j).getD k 0| :=
      absKey_eq (swapVals v i j) k
    have e2 : keys.getD (swapIdx i j k) 0 = |v.getD (swapIdx i j k) 0| :=
      absKey_eq v (swapIdx i j k)
    rw [e1, e2, swapVals_getD hi hj k]
  have hdist' : keys'.Pairwise (· ≠ ·) := by
    rw [List.pairwise_iff_get]
    intro p q hpq
    have hp : (p : ℕ) < v.length := by rw [← hklen']; exact p.isLt
    have hq : (q : ℕ) < v.length := by rw [← hklen']; exact q.isLt
    have hgoal : keys'.getD p 0 ≠ keys'.getD q 0 := by
      rw [hK p, hK q]
      apply getD_ne_of_pairwise_ne hdist
      · rw [hklen]; exact swapIdx_lt hi hj hp
      · rw [hklen]; exact swapIdx_lt hi hj hq
      · exact fun he =>
          Nat.ne_of_lt (Fin.lt_iff_val_lt_val.mp hpq) (swapIdx_inj i j he)
    rw [List.get_eq_getElem, List.get_eq_getElem,
      ← List.getD_eq_getElem keys' 0 p.isLt,
      ← List.getD_eq_getElem keys' 0 q.isLt]
    exact hgoal
  have hperm1 : (argsortAsc keys').Perm (List.range v.length) := by
    have h := argsortAsc_perm keys'
    rwa [hklen'] at h
  have hpermL : (argsortAsc keys).Perm (List.range v.length) := by
    have h := argsortAsc_perm keys
    rwa [hklen] at h
  have hpermM : ((argsortAsc keys).map (swapIdx i j)).Perm
      (List.range v.length) :=
    (hpermL.map (swapIdx i j)).trans (map_swapIdx_range_perm hi hj)
  have hsortW := argsort_pairwise_strict keys' hdist'
  have hsortM : ((argsortAsc keys).map (swapIdx i j)).Pairwise
      (fun a b => keys'.getD a 0 < keys'.getD b 0) := by
    rw [List.pairwise_map]
    refine List.Pairwise.imp ?_ (argsort_pairwise_strict keys hdist)
    intro a b hab
    rw [hK, hK, swapIdx_invol, swapIdx_invol]
    exact hab
  exact eq_of_perm_of_strict_sorted (fun k => keys'.getD k 0)
    (hperm1.trans hpermM.symm) hsortW hsortM

/-- Swapping two attribution magnitudes permutes the ranked index list by
the same transposition. -/
theorem top_indices_swap (v : List ℚ) {i j : ℕ} (hi : i < v.length)
    (hj : j < v.length)
    (hdist : (v.map (fun x => |x|)).Pairwise (· ≠ ·)) :
    top_indices (swapVals v i j) = (top_indices v).map (swapIdx i j) := by
  unfold top_indices
  rw [swapVals_length, argsortAsc_swap v hi hj hdist, ← List.map_drop,
    List.map_reverse]

/-- The Explanation Generator succeeds on every feature name whose
title-split is non-empty. -/
theorem gte_isSome (feature_name : String) (v : FVal)
    (r : Option (ℚ × ℚ)) (h : pyTitleParts feature_name ≠ []) :
    ∃ txt, generate_text_explanation feature_name v r = some txt := by
  unfold generate_text_explanation
  cases htp : pyTitleParts feature_name with
  | nil => exact absurd htp h
  | cons sensor rest =>
    cases r with
    | none => exact ⟨_, rfl⟩
    | some lu =>
      obtain ⟨lb, ub⟩ := lu
      dsimp only
      cases h1 : fvalLt v lb with
      | true => exact ⟨_, rfl⟩
      | false =>
        cases h2 : fvalGt v ub with
        | true => exact ⟨_, rfl⟩
        | false => exact ⟨_, rfl⟩

/-- The explanation loop succeeds with one text per index when every
index is in bounds and every expected name splits non-trivially. -/
theorem build_explanations_go_ok (expected : List String) (row : List FVal)
    (ranges : List (String × (ℚ × ℚ)))
    (hnm : ∀ nm ∈ expected, pyTitleParts nm ≠ []) :
    ∀ idxs : List ℕ, (∀ k ∈ idxs, k < expected.length ∧ k < row.length) →
      ∃ out, build_explanations_go expected row ranges idxs = .ok out ∧
        out.length = idxs.length := by
  intro idxs
  induction idxs with
  | nil => exact fun _ => ⟨[], rfl, rfl⟩
  | cons a rest ih =>
    intro hb
    obtain ⟨hae, har⟩ := hb a (List.mem_cons_self a rest)
    obtain ⟨out, hout, hlen⟩ := ih (fun k hk => hb k (List.mem_cons_of_mem _ hk))
    have hgete : expected.get? a = some expected[a] :=
      by rw [List.get?_eq_getElem?, List.getElem?_eq_getElem hae]
    have hgetr : row.get? a = some row[a] :=
      by rw [List.get?_eq_getElem?, List.getElem?_eq_getElem har]
    obtain ⟨txt, htxt⟩ := gte_isSome expected[a] row[a]
      (pyDictGet ranges expected[a]) (hnm _ (expected.getElem_mem hae))
    refine ⟨txt :: out, ?_, by simp [hlen]⟩
    unfold build_explanations_go
    rw [hgete, hgetr]
    simp only [htxt, hout]

/-- C1: the explanation stage produces exactly `min 3 n` texts for `n`
attributions, the selected indices are ordered by descending absolute
attribution, and swapping the attribution magnitudes of two features
permutes the selection by the same transposition (for pairwise distinct
magnitudes). -/
theorem C1_top3_ranking (v : List ℚ) (i j : ℕ) (expected : List String)
    (row : List FVal) (ranges : List (String × (ℚ × ℚ)))
    (hi : i < v.length) (hj : j < v.length)
    (hdist : (v.map (fun x => |x|)).Pairwise (· ≠ ·))
    (hexp : expected.length = v.length) (hrow : row.length = v.length)
    (hnm : ∀ nm ∈ expected, pyTitleParts nm ≠ []) :
    (∃ out, build_explanations expected row ranges v = .ok out ∧
      out.length = min 3 v.length) ∧
    (top_indices v).Pairwise (fun a b => absKey v b ≤ absKey v a) ∧
    top_indices (swapVals v i j) = (top_indices v).map (swapIdx i j) := by
  refine ⟨?_, pairwise_top_indices v, top_indices_swap v hi hj hdist⟩
  obtain ⟨out, hout, hlen⟩ := build_explanations_go_ok expected row ranges hnm
    (top_indices v) (fun k hk => ⟨by rw [hexp]; exact mem_top_indices hk,
      by rw [hrow]; exact mem_top_indices hk⟩)
  exact ⟨out, hout, by rw [hlen, length_top_indices]⟩

/-- Witness for C1: four attributions with pairwise distinct magnitudes;
the indices 0 and 2 are swapped. -/
theorem C1_top3_ranking_witness :
    ((0 : ℕ) < ([2, -1, 4, 3] : List ℚ).length ∧
      (2 : ℕ) < ([2, -1, 4, 3] : List ℚ).length ∧
      (([2, -1, 4, 3] : List ℚ).map (fun x => |x|)).Pairwise (· ≠ ·) ∧
      (["PS1_mean", "PS1_std", "PS1_min", "PS1_max"] : List String).length =
        ([2, -1, 4, 3] : List ℚ).length ∧
      ([some 15, some 1, some 8, some 30] : List FVal).length =
        ([2, -1, 4, 3] : List ℚ).length ∧
      (∀ nm ∈ (["PS1_mean", "PS1_std", "PS1_min", "PS1_max"] : List String),
        pyTitleParts nm ≠ [])) ∧
    ((∃ out, build_explanations ["PS1_mean", "PS1_std", "PS1_min", "PS1_max"]
        [some 15, some 1, some 8, some 30] [("PS1_mean", (10, 20))]
        [2, -1, 4, 3] = .ok out ∧
      out.length = min 3 ([2, -1, 4, 3] : List ℚ).length) ∧
    (top_indices [2, -1, 4, 3]).Pairwise
      (fun a b => absKey [2, -1, 4, 3] b ≤ absKey [2, -1, 4, 3] a) ∧
    top_indices (swapVals [2, -1, 4, 3] 0 2) =
      (top_indices [2, -1, 4, 3]).map (swapIdx 0 2)) :=
  ⟨⟨by decide, by decide, by decide, rfl, rfl, by decide⟩,
    C1_top3_ranking [2, -1, 4, 3] 0 2
      ["PS1_mean", "PS1_std", "PS1_min", "PS1_max"]
      [some 15, some 1, some 8, some 30] [("PS1_mean", (10, 20))]
      (by decide) (by decide) (by decide) rfl rfl (by decide)⟩
